import Mathlib

/-!
Verification of the RustyGW HTTP gateway core against its specification.

The definitions below are a shallow embedding of the Rust source:

* `src/errors.rs` — the `AppError` sum and its HTTP status mapping;
* `src/features/circuit_breaker/circuit_breaker.rs` and
  `src/middleware/circuit_breaker/circuit_breaker.rs` — the per-route
  circuit breaker state machine;
* `src/features/rate_limiter/state.rs` — the token-bucket store;
* `src/middleware/cache/cache.rs` — cache key sanitization;
* `src/proxy.rs` — destination selection, the SSRF guard and the
  request-size guard;
* `src/utils/duration.rs` — `parse_duration`;
* `src/config.rs` and `src/utils/hot_reload.rs` — config validation and
  the hot-reload swap.

Machine integers are modelled as `Nat` (with explicit wrap-around where it
matters), `f64` token arithmetic is modelled over `ℚ`, instants are
modelled as numbers (monotone clock), and fallible Rust code returns
`Option`/`Except`.  A `none` result marks a Rust panic.
-/

namespace RustyGW

/-- Embedding of `AppError` from `src/errors.rs`.  Payloads that the claims
do not inspect (the `reqwest::Error` in `ProxyError`) are dropped; string
payloads are kept. -/
inductive AppError where
  | rateLimited : AppError
  | serviceUnavailable : AppError
  | authFailed : String → AppError
  | missingAuthToken : AppError
  | invalidAuthHeader : AppError
  | insufficientPermissions : AppError
  | tokenExpired : AppError
  | routeNotFound : AppError
  | proxyError : AppError
  | invalidDestination : String → AppError
  | internalServerError : AppError
  | hotReloadError : String → AppError
  deriving Repr, DecidableEq

/-- Embedding of `AppError::into_response` from `src/errors.rs` lines
27-72, restricted to the HTTP status code it picks. -/
def AppError.status : AppError → Nat
  | .rateLimited => 429
  | .authFailed _ => 401
  | .missingAuthToken => 401
  | .invalidAuthHeader => 401
  | .insufficientPermissions => 403
  | .tokenExpired => 401
  | .routeNotFound => 404
  | .proxyError => 502
  | .invalidDestination _ => 500
  | .internalServerError => 500
  | .serviceUnavailable => 503
  | .hotReloadError _ => 500

/-! ## Circuit breaker (`src/features/circuit_breaker/circuit_breaker.rs`
and `src/middleware/circuit_breaker/circuit_breaker.rs`) -/

/-- Embedding of `enum State` from
`src/features/circuit_breaker/circuit_breaker.rs`.  `Instant` values are
modelled as `Nat` timestamps of a monotone clock. -/
inductive CircuitState where
  | closed (consecutive_failures : Nat) : CircuitState
  | open (opened_at : Nat) : CircuitState
  | halfOpen (consecutive_successes : Nat) : CircuitState
  deriving Repr, DecidableEq

/-- Embedding of `CircuitBreakerConfig` from `src/config.rs` lines 294-299.
The `open_duration` field is a duration string parsed on every request with
`parse_duration(..).unwrap_or_default()`; here it is carried already parsed,
in seconds. -/
structure CircuitBreakerConfig where
  failure_threshold : Nat
  success_threshold : Nat
  open_duration : Nat
  deriving Repr, DecidableEq

/-- Embedding of `CircuitBreakerStore::get_or_insert` (lines 37-53 of
`src/features/circuit_breaker/circuit_breaker.rs`): a freshly created
circuit starts as `Closed { consecutive_failures: 0 }`. -/
def cbInitialState : CircuitState := .closed 0

/-- Embedding of the post-response state update of the circuit-breaker
middleware (`src/middleware/circuit_breaker/circuit_breaker.rs` lines
59-99), applied to the state as it stands after the admission decision,
with `fails` the value of `response.status().is_server_error()`. -/
def cbApplyOutcome (cfg : CircuitBreakerConfig) (st : CircuitState)
    (fails : Bool) (now : Nat) : CircuitState :=
  if fails then
    match st with
    | .halfOpen _ =>
        if 1 ≥ cfg.failure_threshold then .open now else .closed 1
    | .closed f =>
        if f + 1 ≥ cfg.failure_threshold then .open now else .closed (f + 1)
    | .open t => .open t
  else
    match st with
    | .halfOpen s =>
        if s + 1 ≥ cfg.success_threshold then .closed 0
        else .halfOpen (s + 1)
    | .closed f => if f > 0 then .closed 0 else .closed f
    | .open t => .open t

/-- Embedding of one traversal of the circuit-breaker middleware `layer`
(`src/middleware/circuit_breaker/circuit_breaker.rs` lines 28-102) for a
route with a circuit-breaker config.  The result is
`(some ServiceUnavailable, unchanged state)` when the request is rejected
without touching the upstream, and `(none, updated state)` when the
request is admitted, the upstream runs, and the outcome `fails` is applied
under the same lock. -/
def circuit_breaker_layer (cfg : CircuitBreakerConfig) (st : CircuitState)
    (now : Nat) (fails : Bool) : Option AppError × CircuitState :=
  match st with
  | .open t =>
      if now - t > cfg.open_duration then
        (none, cbApplyOutcome cfg (.halfOpen 0) fails now)
      else
        (some .serviceUnavailable, .open t)
  | .halfOpen s => (none, cbApplyOutcome cfg (.halfOpen s) fails now)
  | .closed f => (none, cbApplyOutcome cfg (.closed f) fails now)

/-! ## Token-bucket rate limiter (`src/features/rate_limiter/state.rs`) -/

/-- Embedding of `struct Bucket` from `src/features/rate_limiter/state.rs`
lines 19-23.  The `f64` token count is modelled over `ℚ`; the two
`Instant` fields are modelled as rational timestamps of a monotone
clock. -/
structure Bucket where
  tokens : ℚ
  last_refill : ℚ
  last_access : ℚ
  deriving Repr, DecidableEq

/-- The DashMap of per-client buckets, modelled as an association list. -/
def RateStore := List (String × Bucket)

/-- Lookup of a key in the bucket map. -/
def findBucket : RateStore → String → Option Bucket
  | [], _ => none
  | (k, b) :: rest, key => if k = key then some b else findBucket rest key

/-- Insertion or replacement of a key in the bucket map. -/
def setBucket : RateStore → String → Bucket → RateStore
  | [], key, b => [(key, b)]
  | (k, b0) :: rest, key, b =>
      if k = key then (key, b) :: rest else (k, b0) :: setBucket rest key b

/-- Embedding of `InMemoryRateLimitState::check_and_update`
(`src/features/rate_limiter/state.rs` lines 87-118), sequentialized: the
entry is created on first use with a full bucket (`or_insert_with`), the
elapsed time since `last_refill` refills the bucket up to `capacity`,
both instants are set to `now`, and a token is consumed iff at least one
is available. -/
def check_and_update (store : RateStore) (key : String) (capacity : Nat)
    (refill_rate : ℚ) (now : ℚ) : Bool × RateStore :=
  let bucket := (findBucket store key).getD
    { tokens := (capacity : ℚ), last_refill := now, last_access := now }
  let elapsed := now - bucket.last_refill
  let tokens_to_add := elapsed * refill_rate
  let refilled := min (bucket.tokens + tokens_to_add) (capacity : ℚ)
  if 1 ≤ refilled then
    (true, setBucket store key
      { tokens := refilled - 1, last_refill := now, last_access := now })
  else
    (false, setBucket store key
      { tokens := refilled, last_refill := now, last_access := now })

/-! ## Cache key derivation (`src/middleware/cache/cache.rs` and
`src/constants.rs`) -/

/-- Embedding of `cache::MAX_KEY_LENGTH` from `src/constants.rs` line 8. -/
def MAX_KEY_LENGTH : Nat := 512

/-- Embedding of `cache::TRUNCATED_KEY_LENGTH` from `src/constants.rs`
line 9. -/
def TRUNCATED_KEY_LENGTH : Nat := 508

/-- The characters explicitly replaced by `sanitize_cache_key`
(`src/middleware/cache/cache.rs` lines 14-26).  Quote, apostrophe,
backslash and the curly brackets are written by code point. -/
def cacheKeyBlacklist : List Char :=
  ['/', '?', '#', ' ', '\t', '\n', '\r', '&', '=', '+', '%',
   '<', '>', Char.ofNat 34, Char.ofNat 39, Char.ofNat 92, '|', ';', ':',
   ',', '.', '[', ']', Char.ofNat 123, Char.ofNat 125, '(', ')']

/-- Embedding of Rust `char::is_control`: the Unicode `Cc` category,
`U+0000`-`U+001F` and `U+007F`-`U+009F`. -/
def rustIsControl (c : Char) : Bool :=
  c.toNat < 0x20 || (0x7f ≤ c.toNat && c.toNat ≤ 0x9f)

/-- The per-character replacement of `sanitize_cache_key`
(`src/middleware/cache/cache.rs` lines 13-29): the listed characters and
control characters become an underscore, everything else is kept. -/
def sanitizeChar (c : Char) : Char :=
  if cacheKeyBlacklist.contains c || rustIsControl c then '_' else c

/-- Number of bytes of the UTF-8 encoding of a character. -/
def utf8Size (c : Char) : Nat :=
  if c.toNat < 0x80 then 1
  else if c.toNat < 0x800 then 2
  else if c.toNat < 0x10000 then 3
  else 4

/-- Byte length of the UTF-8 encoding of a string, as Rust
`String::len`. -/
def utf8Len (s : List Char) : Nat := (s.map utf8Size).sum

/-- Embedding of the Rust byte slice `&s[..budget]`: take whole characters
worth exactly `budget` UTF-8 bytes; `none` marks the panic that Rust
raises when `budget` is not a character boundary (or exceeds the
length). -/
def takeUtf8Bytes (budget : Nat) : List Char → Option (List Char)
  | [] => if budget = 0 then some [] else none
  | c :: rest =>
      if budget = 0 then some []
      else if utf8Size c ≤ budget then
        (takeUtf8Bytes (budget - utf8Size c) rest).map (fun t => c :: t)
      else none

/-- Embedding of `sanitize_cache_key` from `src/middleware/cache/cache.rs`
lines 10-38: map every character through `sanitizeChar`; when the result
is longer than `MAX_KEY_LENGTH` UTF-8 bytes, keep the first
`TRUNCATED_KEY_LENGTH` bytes and append the literal `_truncated` suffix.
A `none` result marks the byte-boundary panic of the slice. -/
def sanitize_cache_key (uri : String) : Option String :=
  let sanitized := uri.data.map sanitizeChar
  if utf8Len sanitized > MAX_KEY_LENGTH then
    (takeUtf8Bytes TRUNCATED_KEY_LENGTH sanitized).map
      (fun t => String.mk (t ++ "_truncated".data))
  else some (String.mk sanitized)

/-- Modelled from the spec wording of claim C3, for comparison with the
source: every character outside `[A-Za-z0-9_-]` becomes an underscore,
and a sanitized string longer than 512 characters is truncated to its
first 508 characters plus the `_truncated` suffix. -/
def claim_sanitized_key (uri : String) : String :=
  let sanitized := uri.data.map (fun c =>
    if c.isAlpha || c.isDigit || c = '_' || c = '-' then c else '_')
  if sanitized.length > 512 then
    String.mk (sanitized.take 508 ++ "_truncated".data)
  else String.mk sanitized

/-! ## Destination selection (`src/proxy.rs` lines 20-40) -/

/-- Embedding of the request-id hash of `select_destination`
(`src/proxy.rs` line 37): the sum of the code points of the id. -/
def hash_request_id (request_id : String) : Nat :=
  (request_id.data.map Char.toNat).sum

/-- Embedding of `select_destination` from `src/proxy.rs` lines 20-40,
taking the relevant `RouteConfig` fields `destinations` and the legacy
single `destination`.  No health information is consulted: the candidate
set is exactly the configured destination list. -/
def select_destination (destinations : List String) (destination : String)
    (request_id : String) : Except AppError String :=
  if destinations = [] ∧ destination ≠ "" then .ok destination
  else if destinations = [] then
    .error (.invalidDestination "No destinations configured")
  else if destinations.length = 1 then .ok (destinations.headD "")
  else .ok (destinations.getD
    (hash_request_id request_id % destinations.length) "")

/-- Health status per destination, from the spec of the health store
(section 4.10); used only to state claim C4 as written. -/
inductive HealthStatus where
  | healthy | unhealthy | unknown
  deriving Repr, DecidableEq

/-- Modelled from the spec wording of claim C4, for comparison with the
source: destinations recorded `Unhealthy` are excluded, the index is the
hash of the request id modulo the number of remaining candidates, a single
configured destination is used unconditionally, and an empty candidate set
signals `ServiceUnavailable`. -/
def claim_select_destination (destinations : List String)
    (health : String → HealthStatus) (request_id : String) :
    Except AppError String :=
  if destinations.length = 1 then .ok (destinations.headD "")
  else
    let candidates := destinations.filter
      (fun d => !(health d == HealthStatus.unhealthy))
    if candidates = [] then .error .serviceUnavailable
    else .ok (candidates.getD
      (hash_request_id request_id % candidates.length) "")

/-! ## Request size guard (`src/proxy.rs` lines 157-163) -/

/-- Embedding of the request-size check of `proxy_handler`
(`src/proxy.rs` lines 157-163): a fully buffered body larger than
`security.max_request_size` yields
`AppError::InvalidDestination("Request too large")`; the handler returns
this error before the upstream request is built or executed. -/
def proxy_size_check (body_len max_request_size : Nat) : Option AppError :=
  if body_len > max_request_size then
    some (.invalidDestination "Request too large")
  else none

/-- Whether `proxy_handler` goes on to contact the upstream after the size
check: the code reaches `state.http_client.execute` only when
`proxy_size_check` produced no error. -/
def proxy_contacts_upstream (body_len max_request_size : Nat) : Bool :=
  (proxy_size_check body_len max_request_size).isNone

/-! ## SSRF guard (`src/proxy.rs` lines 70-100) -/

/-- Equality on `Except` values is decidable componentwise. -/
instance instDecEqExcept {ε α : Type} [DecidableEq ε] [DecidableEq α] :
    DecidableEq (Except ε α)
  | .ok a, .ok b =>
      if h : a = b then .isTrue (congrArg Except.ok h)
      else .isFalse fun hc => h (Except.ok.inj hc)
  | .error e, .error f =>
      if h : e = f then .isTrue (congrArg Except.error h)
      else .isFalse fun hc => h (Except.error.inj hc)
  | .ok _, .error _ => .isFalse fun hc => Except.noConfusion hc
  | .error _, .ok _ => .isFalse fun hc => Except.noConfusion hc

/-- Embedding of Rust `str::ends_with` over the character lists of the
two strings. -/
def rust_ends_with (s suffix : String) : Bool :=
  suffix.data.isSuffixOf s.data

/-- Outcome of `Url::parse` relevant to the guard: the scheme and the
optional host.  Parsing itself is the external `url` crate; the guard is
embedded over its result, with `none` for a parse failure. -/
structure ParsedUrl where
  scheme : String
  host : Option String
  deriving Repr, DecidableEq

/-- Embedding of `validate_destination_url` from `src/proxy.rs` lines
70-100 over the parse outcome: reject a parse failure, a scheme other
than http or https, a missing host, and a host that neither equals an
allowed domain nor ends with a dot followed by one. -/
def validate_destination_url (parsed : Option ParsedUrl)
    (allowed_domains : List String) : Except AppError Unit :=
  match parsed with
  | none => .error (.invalidDestination "Invalid URL format")
  | some u =>
      if u.scheme = "http" ∨ u.scheme = "https" then
        match u.host with
        | none => .error (.invalidDestination "URL missing host")
        | some host =>
            if allowed_domains.any (fun allowed =>
                host = allowed || rust_ends_with host ("." ++ allowed)) then
              .ok ()
            else .error (.invalidDestination "Host not in allowed domains")
      else .error (.invalidDestination "Only HTTP and HTTPS protocols allowed")

/-- Whether `proxy_handler` goes on to forward the request after the SSRF
guard: `validate_destination_url(..)?` at `src/proxy.rs` lines 132-137
returns the guard error from the handler, so the upstream request is
built and executed (`state.http_client.execute` at line 175) only when
the guard returned Ok. -/
def proxy_forwards_after_ssrf_guard (parsed : Option ParsedUrl)
    (allowed_domains : List String) : Bool :=
  match validate_destination_url parsed allowed_domains with
  | .ok _ => true
  | .error _ => false

/-! ## Duration parser (`src/utils/duration.rs` lines 14-27) -/

/-- Embedding of Rust `char::is_whitespace`: the Unicode `White_Space`
code points. -/
def rustIsWhitespace (c : Char) : Bool :=
  c.toNat = 0x09 || c.toNat = 0x0A || c.toNat = 0x0B || c.toNat = 0x0C ||
  c.toNat = 0x0D || c.toNat = 0x20 || c.toNat = 0x85 || c.toNat = 0xA0 ||
  c.toNat = 0x1680 || (0x2000 ≤ c.toNat && c.toNat ≤ 0x200A) ||
  c.toNat = 0x2028 || c.toNat = 0x2029 || c.toNat = 0x202F ||
  c.toNat = 0x205F || c.toNat = 0x3000

/-- Embedding of Rust `str::trim`: strip leading and trailing whitespace
characters. -/
def rustTrim (s : List Char) : List Char :=
  ((s.dropWhile rustIsWhitespace).reverse.dropWhile rustIsWhitespace).reverse

/-- Embedding of Rust `u64::from_str`: an optional leading plus sign, one
or more ASCII digits, value below `2^64`; anything else is an error
(`none`). -/
def parseU64 (s : List Char) : Option Nat :=
  let digits := match s with
    | c :: rest => if c = '+' then rest else s
    | [] => []
  if digits = [] then none
  else if digits.all Char.isDigit then
    let v := digits.foldl (fun acc c => acc * 10 + (c.toNat - 48)) 0
    if v < 2 ^ 64 then some v else none
  else none

/-- Embedding of `parse_duration` from `src/utils/duration.rs` lines
14-27 (the copy in `src/middleware/rate_limiter/rate_limit.rs` lines
44-57 is identical up to one error message).  The result is in seconds.
A `none` result marks a panic: the code slices the trimmed string at byte
`len − 1`, which is not a character boundary whenever the last character
is multi-byte.  The unit multiplication wraps modulo `2^64` as in a
release build (a debug build would panic on overflow instead). -/
def parse_duration (s : String) : Option (Except String Nat) :=
  let t := rustTrim s.data
  match t.getLast? with
  | none => some (.error "Empty duration")
  | some unit =>
      if utf8Size unit ≠ 1 then none
      else
        match parseU64 t.dropLast with
        | none => some (.error "Invalid number in duration")
        | some value =>
            if unit = 's' then some (.ok value)
            else if unit = 'm' then some (.ok (value * 60 % 2 ^ 64))
            else if unit = 'h' then some (.ok (value * 3600 % 2 ^ 64))
            else some (.error "Invalid duration unit")

/-! ## Configuration model, validation and hot reload (`src/config.rs`,
`src/utils/hot_reload.rs`) -/

/-- Embedding of `ServerConfig` from `src/config.rs` lines 20-23. -/
structure ServerConfig where
  addr : String
  deriving Repr, DecidableEq

/-- Embedding of `IdentityConfig` from `src/config.rs` lines 25-28. -/
structure IdentityConfig where
  api_key_store_path : String
  deriving Repr, DecidableEq

/-- Embedding of `SecurityConfig` from `src/config.rs` lines 30-36. -/
structure SecurityConfig where
  allowed_domains : List String
  max_request_size : Nat
  deriving Repr, DecidableEq

/-- Embedding of `AuthType` from `src/config.rs` lines 62-66. -/
inductive AuthType where
  | Jwt | ApiKey
  deriving Repr, DecidableEq

/-- Embedding of `AuthConfig` from `src/config.rs` lines 68-73. -/
structure AuthConfig where
  auth_type : AuthType
  roles : Option (List String)
  deriving Repr, DecidableEq

/-- Embedding of `RateLimitConfig` from `src/config.rs` lines 75-79. -/
structure RateLimitConfig where
  requests : Nat
  period : String
  deriving Repr, DecidableEq

/-- Embedding of `CacheConfig` from `src/config.rs` lines 271-274. -/
structure CacheConfig where
  ttl : String
  deriving Repr, DecidableEq

/-- Embedding of `RouteConfig` from `src/config.rs` lines 81-100.  The
`load_balancing` and `health_check` fields are not read by any embedded
operation and are elided; `circuit_breaker` carries its duration already
parsed. -/
structure RouteConfig where
  name : String
  path : String
  destinations : List String
  destination : String
  auth : Option AuthConfig
  rate_limit : Option RateLimitConfig
  cache : Option CacheConfig
  circuit_breaker : Option CircuitBreakerConfig
  timeout : String
  deriving Repr, DecidableEq

/-- Embedding of `GatewayConfig` from `src/config.rs` lines 9-18
(`observability` is not read by any embedded operation and is elided). -/
structure GatewayConfig where
  server : ServerConfig
  routes : List RouteConfig
  identity : IdentityConfig
  security : SecurityConfig
  deriving Repr, DecidableEq

/-- Embedding of the per-route loop of `GatewayConfig::validate`
(`src/config.rs` lines 153-203), threading the sets of names and paths
seen so far. -/
def validateRoutes : List String → List String → List RouteConfig →
    Except String Unit
  | _, _, [] => .ok ()
  | seen_names, seen_paths, r :: rest =>
      if r.name ∈ seen_names then .error "Duplicate route name"
      else if r.path ∈ seen_paths then .error "Duplicate route path"
      else if rustTrim r.name.data = [] then
        .error "Route name cannot be empty"
      else if rustTrim r.path.data = [] then
        .error "Route path cannot be empty"
      else if r.destinations = [] ∧ r.destination = "" then
        .error "Route must have either destinations or destination"
      else if (match r.auth with
               | some a => a.roles == some []
               | none => false) then
        .error "Route has empty roles array"
      else if (match r.rate_limit with
               | some rl => rl.requests == 0
               | none => false) then
        .error "Route has invalid rate limit requests"
      else validateRoutes (r.name :: seen_names) (r.path :: seen_paths) rest

/-- Embedding of `GatewayConfig::validate` from `src/config.rs` lines
142-216. -/
def GatewayConfig.validate (c : GatewayConfig) : Except String Unit :=
  if c.server.addr = "" then .error "Server address cannot be empty"
  else if c.routes = [] then .error "At least one route must be configured"
  else
    match validateRoutes [] [] c.routes with
    | .error e => .error e
    | .ok _ =>
        if c.security.max_request_size = 0 then
          .error "Max request size must be greater than 0"
        else if rustTrim c.identity.api_key_store_path.data = [] then
          .error "API key store path cannot be empty"
        else .ok ()

/-- Embedding of `GatewayConfig::load` from `src/config.rs` lines 131-139
over the outcome of reading and YAML-parsing the file (both external):
a successfully parsed config is returned only after `validate`
succeeds. -/
def GatewayConfig_load (parsed : Except String GatewayConfig) :
    Except String GatewayConfig :=
  match parsed with
  | .error e => .error e
  | .ok c =>
      match c.validate with
      | .error e => .error e
      | .ok _ => .ok c

/-- Embedding of `safe_config_reload` from `src/utils/hot_reload.rs`
lines 75-93: the shared value is the second argument; it is overwritten
exactly when `GatewayConfig::load` succeeds and kept otherwise. -/
def safe_config_reload (parsed : Except String GatewayConfig)
    (current : GatewayConfig) : GatewayConfig :=
  match GatewayConfig_load parsed with
  | .ok new_config => new_config
  | .error _ => current

/-- Embedding of `ApiKeyDetails` from `src/config.rs` lines 236-242. -/
structure ApiKeyDetails where
  user_id : String
  roles : List String
  status : String
  deriving Repr, DecidableEq

/-- Embedding of `ApiKeyStore` from `src/config.rs` lines 231-234, with
the key map as an association list. -/
structure ApiKeyStore where
  keys : List (String × ApiKeyDetails)
  deriving Repr, DecidableEq

/-- Embedding of `safe_api_key_reload` from `src/utils/hot_reload.rs`
lines 96-114: `ApiKeyStore::load` (lines 248-253 of `src/config.rs`) is
read plus parse with no further validation, exactly as at startup; the
shared store is overwritten exactly when that succeeds. -/
def safe_api_key_reload (parsed : Except String ApiKeyStore)
    (current : ApiKeyStore) : ApiKeyStore :=
  match parsed with
  | .ok new_store => new_store
  | .error _ => current

/-! ## Lock discipline of the circuit-breaker middleware
(`src/middleware/circuit_breaker/circuit_breaker.rs` lines 28-103) -/

/-- Lock and control events of one traversal of the circuit-breaker
middleware. -/
inductive CBEvent where
  | acquireLock | decideAdmission | upstreamCall | updateState | releaseLock
  deriving Repr, DecidableEq

/-- The event trace of the middleware `layer`, read off the source: the
per-route write guard is taken once at line 28, admission is decided at
lines 31-54, an admitted request runs the upstream at line 57 and applies
the state transition at lines 59-99 while the same guard is still held,
and the guard is released when it goes out of scope at the end of the
function. -/
def cbLayerLockTrace (admitted : Bool) : List CBEvent :=
  if admitted then
    [.acquireLock, .decideAdmission, .upstreamCall, .updateState,
     .releaseLock]
  else [.acquireLock, .decideAdmission, .releaseLock]

/-- Replacing a key and then looking it up returns the new bucket. -/
theorem findBucket_setBucket (store : RateStore) (key : String)
    (b : Bucket) : findBucket (setBucket store key b) key = some b := by
  induction store with
  | nil => simp [setBucket, findBucket]
  | cons hd tl ih =>
      obtain ⟨k, b0⟩ := hd
      by_cases h : k = key <;> simp [setBucket, findBucket, h, ih]

/-- Claim C1 counterexample.  With `failure_threshold = 2`, a failure of an
admitted request in `HalfOpen{0}` moves the state to `Closed{1}`, not to
`Open{now}` as the claim states; and at `now − t` exactly equal to
`open_duration` the code still rejects (it admits only on a strict
inequality), while the claim admits at `now − t ≥ open_duration`. -/
theorem C1_claim_counterexample :
    circuit_breaker_layer ⟨2, 1, 10⟩ (.halfOpen 0) 5 true
      = (none, .closed 1) ∧
    (CircuitState.closed 1 ≠ CircuitState.open 5) ∧
    circuit_breaker_layer ⟨2, 1, 10⟩ (.open 0) 10 false
      = (some .serviceUnavailable, .open 0) := by decide

/-- Claim C1 (amended): the initial state is `Closed{0}`; a request in
`Open{t}` with `now − t ≤ open_duration` is rejected with
`ServiceUnavailable` leaving the state unchanged; with
`now − t > open_duration` (strict) the request is admitted and processed
exactly as from `HalfOpen{0}`; a failure of an admitted request in
`HalfOpen` moves to `Open{now}` only when `failure_threshold ≤ 1` and to
`Closed{1}` otherwise; a failure in `Closed{f}` moves to `Closed{f+1}`
when `f+1 < failure_threshold` and to `Open{now}` otherwise; a success in
`HalfOpen{s}` moves to `HalfOpen{s+1}` when `s+1 < success_threshold` and
to `Closed{0}` otherwise; a success in `Closed{f}` with `f > 0` resets to
`Closed{0}`, and in `Closed{0}` leaves the state unchanged. -/
theorem C1_circuit_breaker_transitions (cfg : CircuitBreakerConfig)
    (now t f s : Nat) (fails : Bool) :
    cbInitialState = .closed 0 ∧
    (now - t ≤ cfg.open_duration →
      circuit_breaker_layer cfg (.open t) now fails
        = (some .serviceUnavailable, .open t)) ∧
    (now - t > cfg.open_duration →
      circuit_breaker_layer cfg (.open t) now fails
          = circuit_breaker_layer cfg (.halfOpen 0) now fails ∧
      (circuit_breaker_layer cfg (.open t) now fails).1 = none) ∧
    (1 < cfg.failure_threshold →
      circuit_breaker_layer cfg (.halfOpen s) now true
        = (none, .closed 1)) ∧
    (cfg.failure_threshold ≤ 1 →
      circuit_breaker_layer cfg (.halfOpen s) now true
        = (none, .open now)) ∧
    (f + 1 < cfg.failure_threshold →
      circuit_breaker_layer cfg (.closed f) now true
        = (none, .closed (f + 1))) ∧
    (f + 1 ≥ cfg.failure_threshold →
      circuit_breaker_layer cfg (.closed f) now true
        = (none, .open now)) ∧
    (s + 1 < cfg.success_threshold →
      circuit_breaker_layer cfg (.halfOpen s) now false
        = (none, .halfOpen (s + 1))) ∧
    (s + 1 ≥ cfg.success_threshold →
      circuit_breaker_layer cfg (.halfOpen s) now false
        = (none, .closed 0)) ∧
    (f > 0 →
      circuit_breaker_layer cfg (.closed f) now false
        = (none, .closed 0)) ∧
    circuit_breaker_layer cfg (.closed 0) now false
      = (none, .closed 0) := by
  refine ⟨rfl, ?_, ?_, ?_, ?_, ?_, ?_, ?_, ?_, ?_, ?_⟩ <;>
    simp only [circuit_breaker_layer, cbApplyOutcome] <;>
    intros <;> repeat' split
  all_goals simp_all <;> omega

/-- Claim C1 witness: a failure in `Closed{0}` under `failure_threshold = 2`
moves the state to `Closed{1}`, by the amended transition theorem. -/
theorem C1_transitions_witness :
    circuit_breaker_layer ⟨2, 2, 10⟩ (.closed 0) 3 true
      = (none, .closed 1) :=
  (C1_circuit_breaker_transitions ⟨2, 2, 10⟩ 3 0 0 0 true).2.2.2.2.2.1
    (by decide)

/-- Claim C2: for a key whose bucket `b` exists, `check_and_update`
returns true iff a token was consumed: with
`refilled = min(capacity, tokens + (now − last_refill) × refill_rate)`,
the call answers true iff `refilled ≥ 1`, and the stored bucket afterwards
has `last_refill = now`, `last_access = now`, and `refilled − 1` tokens
when one was consumed, `refilled` tokens otherwise. -/
theorem C2_check_and_update_algorithm (store : RateStore) (key : String)
    (capacity : Nat) (rate now : ℚ) (b : Bucket)
    (hfind : findBucket store key = some b) :
    ((check_and_update store key capacity rate now).1 = true ↔
      1 ≤ min (b.tokens + (now - b.last_refill) * rate) (capacity : ℚ)) ∧
    findBucket (check_and_update store key capacity rate now).2 key
      = some
        { tokens :=
            if 1 ≤ min (b.tokens + (now - b.last_refill) * rate)
                (capacity : ℚ) then
              min (b.tokens + (now - b.last_refill) * rate)
                (capacity : ℚ) - 1
            else
              min (b.tokens + (now - b.last_refill) * rate) (capacity : ℚ),
          last_refill := now, last_access := now } := by
  unfold check_and_update
  rw [hfind]
  by_cases h : 1 ≤ min (b.tokens + (now - b.last_refill) * rate)
      (capacity : ℚ) <;>
    simp [h, findBucket_setBucket]

/-- Claim C2 witness: a bucket with 2 tokens last refilled at time 0,
queried at time 1 with capacity 5 and refill rate 1, consumes a token. -/
theorem C2_check_and_update_witness :
    ((check_and_update [("k", ⟨2, 0, 0⟩)] "k" 5 1 1).1 = true ↔
      1 ≤ min ((2 : ℚ) + ((1 : ℚ) - 0) * 1) ((5 : Nat) : ℚ)) ∧
    findBucket (check_and_update [("k", ⟨2, 0, 0⟩)] "k" 5 1 1).2 "k"
      = some
        { tokens :=
            if 1 ≤ min ((2 : ℚ) + ((1 : ℚ) - 0) * 1) ((5 : Nat) : ℚ) then
              min ((2 : ℚ) + ((1 : ℚ) - 0) * 1) ((5 : Nat) : ℚ) - 1
            else
              min ((2 : ℚ) + ((1 : ℚ) - 0) * 1) ((5 : Nat) : ℚ),
          last_refill := 1, last_access := 1 } :=
  C2_check_and_update_algorithm [("k", ⟨2, 0, 0⟩)] "k" 5 1 1 ⟨2, 0, 0⟩
    (by decide)

/-- Claim C10: a bucket is created lazily on the first call for a key,
initialized with a full `capacity` of tokens, so with `capacity ≥ 1` the
first `check_and_update` call for a fresh key consumes a token and
returns true, leaving `capacity − 1` tokens. -/
theorem C10_fresh_key_first_call (store : RateStore) (key : String)
    (capacity : Nat) (rate now : ℚ)
    (hfresh : findBucket store key = none) (hcap : 1 ≤ capacity) :
    (check_and_update store key capacity rate now).1 = true ∧
    findBucket (check_and_update store key capacity rate now).2 key
      = some { tokens := (capacity : ℚ) - 1, last_refill := now,
               last_access := now } := by
  have hone : (1 : ℚ) ≤ (capacity : ℚ) := by exact_mod_cast hcap
  unfold check_and_update
  rw [hfresh]
  simp [findBucket_setBucket, hone]

/-- Claim C10 witness: the first call for the fresh key "k" with capacity 1
returns true and leaves an empty bucket. -/
theorem C10_fresh_key_witness :
    (check_and_update [] "k" 1 0 0).1 = true ∧
    findBucket (check_and_update [] "k" 1 0 0).2 "k"
      = some { tokens := ((1 : Nat) : ℚ) - 1, last_refill := 0,
               last_access := 0 } :=
  C10_fresh_key_first_call [] "k" 1 0 0 rfl le_rfl

/-- A successful byte-bounded take returns at most the budget in UTF-8
bytes. -/
theorem takeUtf8Bytes_le (s : List Char) : ∀ budget t,
    takeUtf8Bytes budget s = some t → utf8Len t ≤ budget := by
  induction s with
  | nil =>
      intro budget t h
      simp only [takeUtf8Bytes] at h
      split at h
      · obtain rfl := Option.some.inj h
        simp [utf8Len]
      · exact absurd h (by simp)
  | cons c rest ih =>
      intro budget t h
      simp only [takeUtf8Bytes] at h
      split at h
      · obtain rfl := Option.some.inj h
        simp [utf8Len]
      · split at h
        · obtain ⟨t0, ht0, rfl⟩ := Option.map_eq_some.mp h
          have := ih _ _ ht0
          simp [utf8Len] at this ⊢
          omega
        · exact absurd h (by simp)

/-- Claim C3 counterexample: the character `*` is outside `[A-Za-z0-9_-]`,
so the claim replaces it by an underscore, but `sanitize_cache_key` keeps
it: the code replaces only an explicit character list plus control
characters. -/
theorem C3_claim_counterexample :
    sanitize_cache_key "*" = some "*" ∧
    claim_sanitized_key "*" = "_" ∧
    ("*" : String) ≠ "_" := by decide

/-- Claim C3 (amended): the cache key is the request URI with every
character of the explicit list `/ ? # space tab newline carriage-return
& = + % < > quote apostrophe backslash | ; : , . [ ] curly-brackets ( )`
or of the Unicode control category replaced by an underscore and every
other character kept; whenever the sanitized string is longer than 512
UTF-8 bytes, the key is its first 508 bytes followed by the suffix
`_truncated` (the byte slice panics when byte 508 is not a character
boundary). -/
theorem C3_sanitize_cache_key (uri : String) :
    (∀ c ∈ uri.data,
      ((cacheKeyBlacklist.contains c || rustIsControl c) = true →
        sanitizeChar c = '_') ∧
      ((cacheKeyBlacklist.contains c || rustIsControl c) = false →
        sanitizeChar c = c)) ∧
    (utf8Len (uri.data.map sanitizeChar) ≤ MAX_KEY_LENGTH →
      sanitize_cache_key uri
        = some (String.mk (uri.data.map sanitizeChar))) ∧
    (utf8Len (uri.data.map sanitizeChar) > MAX_KEY_LENGTH →
      ∀ t, takeUtf8Bytes TRUNCATED_KEY_LENGTH (uri.data.map sanitizeChar)
          = some t →
        sanitize_cache_key uri = some (String.mk (t ++ "_truncated".data)) ∧
        utf8Len t ≤ TRUNCATED_KEY_LENGTH) := by
  refine ⟨?_, ?_, ?_⟩
  · intro c _
    constructor <;> intro h
    · unfold sanitizeChar
      rw [if_pos h]
    · have hne : ¬((cacheKeyBlacklist.contains c || rustIsControl c)
          = true) := by
        rw [h]
        exact Bool.false_ne_true
      unfold sanitizeChar
      rw [if_neg hne]
  · intro h
    simp [sanitize_cache_key, Nat.not_lt.mpr h]
  · intro h t ht
    constructor
    · simp [sanitize_cache_key, h, ht]
    · exact takeUtf8Bytes_le _ _ _ ht

/-- Claim C3 witness: the short URI `/api?q=1` sanitizes to `_api_q_1`
without truncation, by the amended theorem. -/
theorem C3_sanitize_witness :
    sanitize_cache_key "/api?q=1"
      = some (String.mk ("/api?q=1".data.map sanitizeChar)) :=
  (C3_sanitize_cache_key "/api?q=1").2.1 (by decide)

/-- Claim C4 counterexample: with destinations `http://a` and `http://b`,
`http://a` recorded `Unhealthy`, and a request id hashing to index 0, the
code still picks `http://a` while the claim picks `http://b`; and with no
destination configured the code signals `InvalidDestination`, not
`ServiceUnavailable` as the claim states. -/
theorem C4_claim_counterexample :
    select_destination ["http://a", "http://b"] "" "b" = .ok "http://a" ∧
    claim_select_destination ["http://a", "http://b"]
        (fun d => if d = "http://a" then .unhealthy else .healthy) "b"
      = .ok "http://b" ∧
    (Except.ok "http://a" ≠ (Except.ok "http://b" : Except AppError String)) ∧
    select_destination [] "" "r"
      = .error (.invalidDestination "No destinations configured") ∧
    ((Except.error (AppError.invalidDestination "No destinations configured")
        : Except AppError String)
      ≠ .error .serviceUnavailable) := by decide

/-- Claim C4 (amended): destination selection ignores health records; the
candidate set is the full configured destination list.  An empty list
with a non-empty legacy single destination uses that destination
unconditionally; an empty list without one signals `InvalidDestination`
(not `ServiceUnavailable`); a single-element list is used
unconditionally; otherwise the destination at `hash(request_id) mod n`
over all `n` configured destinations is picked. -/
theorem C4_select_destination (destinations : List String)
    (destination request_id : String) :
    (destinations = [] → destination ≠ "" →
      select_destination destinations destination request_id
        = .ok destination) ∧
    (destinations = [] → destination = "" →
      select_destination destinations destination request_id
        = .error (.invalidDestination "No destinations configured")) ∧
    (destinations.length = 1 →
      select_destination destinations destination request_id
        = .ok (destinations.headD "")) ∧
    (2 ≤ destinations.length →
      select_destination destinations destination request_id
        = .ok (destinations.getD
            (hash_request_id request_id % destinations.length) "")) := by
  refine ⟨?_, ?_, ?_, ?_⟩ <;> intro h
  · intro hd
    simp [select_destination, h, hd]
  · intro hd
    simp [select_destination, h, hd]
  · have hne : destinations ≠ [] := by
      intro hnil; rw [hnil] at h; simp at h
    simp [select_destination, hne, h]
  · have hne : destinations ≠ [] := by
      intro hnil; rw [hnil] at h; simp at h
    have hlen : destinations.length ≠ 1 := by omega
    simp [select_destination, hne, hlen]

/-- Claim C4 witness: with two destinations and request id `b`
(hash 98, even), index 0 is picked, by the amended theorem. -/
theorem C4_select_witness :
    select_destination ["http://a", "http://b"] "" "b"
      = .ok (["http://a", "http://b"].getD
          (hash_request_id "b" % (["http://a", "http://b"] : List String).length) "") :=
  (C4_select_destination ["http://a", "http://b"] "" "b").2.2.2 (by decide)

/-- Claim C5: divergence of the code from the claim at the failing input.
A fully buffered body of 11 MiB against `max_request_size` of 10 MiB is
rejected before the upstream is contacted, but with
`AppError::InvalidDestination`, whose HTTP status is 500, not the
413 Payload Too Large equivalent that the claim (and the repository
negative test, which accepts only 413 or 400) prescribes. -/
theorem C5_size_guard_divergence :
    proxy_size_check (11 * 1024 * 1024) (10 * 1024 * 1024)
      = some (.invalidDestination "Request too large") ∧
    (AppError.invalidDestination "Request too large").status = 500 ∧
    ((500 : Nat) ≠ 413) ∧
    proxy_contacts_upstream (11 * 1024 * 1024) (10 * 1024 * 1024)
      = false := by decide

/-- Claim C6: the SSRF guard accepts exactly when the URL parses, its
scheme is http or https, it has a host, and the host equals an allowed
domain or ends with a dot followed by one; every rejection is an
`InvalidDestination` error, and on a rejection the handler does not
forward the request to the upstream. -/
theorem C6_validate_destination_url (parsed : Option ParsedUrl)
    (allowed_domains : List String) :
    (validate_destination_url parsed allowed_domains = .ok () ↔
      ∃ u, parsed = some u ∧
        (u.scheme = "http" ∨ u.scheme = "https") ∧
        ∃ host, u.host = some host ∧
          ∃ a ∈ allowed_domains,
            host = a ∨ rust_ends_with host ("." ++ a) = true) ∧
    (validate_destination_url parsed allowed_domains ≠ .ok () →
      ∃ msg, validate_destination_url parsed allowed_domains
        = .error (.invalidDestination msg)) ∧
    (∀ e, validate_destination_url parsed allowed_domains = .error e →
      proxy_forwards_after_ssrf_guard parsed allowed_domains = false) := by
  refine ⟨?_, ?_, ?_⟩
  · cases parsed with
    | none =>
        simp [validate_destination_url]
    | some u =>
        have hiff : ∀ host : String, (allowed_domains.any fun allowed =>
            host = allowed || rust_ends_with host ("." ++ allowed)) = true ↔
            ∃ a ∈ allowed_domains,
              host = a ∨ rust_ends_with host ("." ++ a) = true := by
          intro host
          simp [List.any_eq_true]
        simp only [validate_destination_url]
        by_cases hs : u.scheme = "http" ∨ u.scheme = "https"
        · rw [if_pos hs]
          cases hh : u.host with
          | none =>
              simp only [hh]
              constructor
              · intro hc
                exact absurd hc (by simp)
              · rintro ⟨u2, hu2, _, host2, hh2, _⟩
                obtain rfl : u = u2 := Option.some.inj hu2
                rw [hh] at hh2
                exact absurd hh2 (by simp)
          | some host =>
              simp only [hh]
              by_cases hb : (allowed_domains.any fun allowed =>
                  host = allowed || rust_ends_with host ("." ++ allowed))
                    = true
              · rw [if_pos hb]
                constructor
                · intro _
                  exact ⟨u, rfl, hs, host, hh, (hiff host).mp hb⟩
                · intro _
                  rfl
              · rw [if_neg hb]
                constructor
                · intro hc
                  exact absurd hc (by simp)
                · rintro ⟨u2, hu2, _, host2, hh2, hdom⟩
                  obtain rfl : u = u2 := Option.some.inj hu2
                  rw [hh] at hh2
                  obtain rfl : host = host2 := Option.some.inj hh2
                  exact absurd ((hiff host).mpr hdom) hb
        · rw [if_neg hs]
          constructor
          · intro hc
            exact absurd hc (by simp)
          · rintro ⟨u2, hu2, hs2, _⟩
            obtain rfl : u = u2 := Option.some.inj hu2
            exact absurd hs2 hs
  · intro hne
    cases parsed with
    | none => exact ⟨"Invalid URL format", rfl⟩
    | some u =>
        by_cases hs : u.scheme = "http" ∨ u.scheme = "https"
        · cases hh : u.host with
          | none =>
              refine ⟨"URL missing host", ?_⟩
              simp only [validate_destination_url, hh]
              rw [if_pos hs]
          | some host =>
              by_cases hb : (allowed_domains.any fun allowed =>
                  host = allowed || rust_ends_with host ("." ++ allowed))
                    = true
              · refine absurd ?_ hne
                simp only [validate_destination_url, hh]
                rw [if_pos hs, if_pos hb]
              · refine ⟨"Host not in allowed domains", ?_⟩
                simp only [validate_destination_url, hh]
                rw [if_pos hs, if_neg hb]
        · refine ⟨"Only HTTP and HTTPS protocols allowed", ?_⟩
          simp only [validate_destination_url]
          rw [if_neg hs]
  · intro e he
    simp [proxy_forwards_after_ssrf_guard, he]

/-- Claim C6 witness: scheme http with host `api.localhost` against the
allowed domain `localhost` passes the guard; and the metadata address
`169.254.169.254` is rejected by the guard, upon which the handler does
not forward the request — both by the main theorem. -/
theorem C6_validate_witness :
    validate_destination_url (some ⟨"http", some "api.localhost"⟩)
      ["localhost"] = .ok () ∧
    proxy_forwards_after_ssrf_guard
      (some ⟨"http", some "169.254.169.254"⟩) ["localhost"] = false :=
  ⟨(C6_validate_destination_url (some ⟨"http", some "api.localhost"⟩)
      ["localhost"]).1.mpr
    ⟨⟨"http", some "api.localhost"⟩, rfl, Or.inl rfl,
      "api.localhost", rfl, "localhost", by simp, Or.inr (by decide)⟩,
   (C6_validate_destination_url (some ⟨"http", some "169.254.169.254"⟩)
      ["localhost"]).2.2
    (.invalidDestination "Host not in allowed domains") (by decide)⟩

/-- Claim C7: when re-reading, parsing or validating the new gateway
config fails, `safe_config_reload` leaves the shared value unchanged; the
value is replaced only by a parsed config that passed the same `validate`
as at startup; and a failed API-key reload likewise keeps the previous
store. -/
theorem C7_hot_reload_keeps_old_value
    (parsed : Except String GatewayConfig) (current : GatewayConfig)
    (kparsed : Except String ApiKeyStore) (kcurrent : ApiKeyStore) :
    (∀ e, GatewayConfig_load parsed = .error e →
      safe_config_reload parsed current = current) ∧
    (∀ c, parsed = .ok c → c.validate ≠ .ok () →
      safe_config_reload parsed current = current) ∧
    (safe_config_reload parsed current ≠ current →
      (safe_config_reload parsed current).validate = .ok () ∧
      parsed = .ok (safe_config_reload parsed current)) ∧
    (∀ e, kparsed = .error e →
      safe_api_key_reload kparsed kcurrent = kcurrent) := by
  refine ⟨?_, ?_, ?_, ?_⟩
  · intro e he
    simp [safe_config_reload, he]
  · intro c hc hval
    subst hc
    simp only [safe_config_reload, GatewayConfig_load]
    cases hv : c.validate with
    | error e => simp
    | ok u => exact absurd (by rw [hv]) hval
  · intro hne
    cases parsed with
    | error e => exact absurd (by simp [safe_config_reload,
        GatewayConfig_load]) hne
    | ok c =>
        cases hv : c.validate with
        | error e =>
            exact absurd (by simp [safe_config_reload,
              GatewayConfig_load, hv]) hne
        | ok u =>
            have hr : safe_config_reload (.ok c) current = c := by
              simp [safe_config_reload, GatewayConfig_load, hv]
            rw [hr]
            exact ⟨hv, rfl⟩
  · intro e he
    simp [safe_api_key_reload, he]

/-- Claim C7 witness: a reload whose read or parse fails keeps the
previous config and the previous API-key store, by the main theorem. -/
theorem C7_hot_reload_witness :
    safe_config_reload (.error "boom")
        ⟨⟨"a"⟩, [], ⟨"k.yaml"⟩, ⟨["localhost"], 1024⟩⟩
      = ⟨⟨"a"⟩, [], ⟨"k.yaml"⟩, ⟨["localhost"], 1024⟩⟩ ∧
    safe_api_key_reload (.error "bad") ⟨[]⟩ = ⟨[]⟩ :=
  ⟨(C7_hot_reload_keeps_old_value (.error "boom")
      ⟨⟨"a"⟩, [], ⟨"k.yaml"⟩, ⟨["localhost"], 1024⟩⟩
      (.error "bad") ⟨[]⟩).1 "boom" rfl,
   (C7_hot_reload_keeps_old_value (.error "boom")
      ⟨⟨"a"⟩, [], ⟨"k.yaml"⟩, ⟨["localhost"], 1024⟩⟩
      (.error "bad") ⟨[]⟩).2.2.2 "bad" rfl⟩

/-- Claim C8 counterexample: in the trace of an admitted request the
write guard is acquired exactly once and the upstream call occurs before
any release of the guard, so the guard is not released before the
upstream call and is never reacquired afterwards, contrary to the
claim. -/
theorem C8_claim_counterexample :
    (cbLayerLockTrace true).count CBEvent.acquireLock = 1 ∧
    (cbLayerLockTrace true).count CBEvent.releaseLock = 1 ∧
    ((cbLayerLockTrace true).takeWhile
        (fun e => e != CBEvent.releaseLock)).contains CBEvent.upstreamCall
      = true := by decide

/-- Claim C8 (amended): the middleware acquires the per-route exclusive
lock once, decides admission, and — on an admitted request — makes the
upstream call and applies the state transition while still holding that
same lock, releasing it only at the end; a rejected request releases the
lock without an upstream call.  The lock is held across the upstream
call. -/
theorem C8_single_lock_scope :
    ((cbLayerLockTrace true).count CBEvent.acquireLock = 1 ∧
     (cbLayerLockTrace true).count CBEvent.releaseLock = 1 ∧
     (cbLayerLockTrace true).indexOf CBEvent.acquireLock
       < (cbLayerLockTrace true).indexOf CBEvent.upstreamCall ∧
     (cbLayerLockTrace true).indexOf CBEvent.upstreamCall
       < (cbLayerLockTrace true).indexOf CBEvent.updateState ∧
     (cbLayerLockTrace true).indexOf CBEvent.updateState
       < (cbLayerLockTrace true).indexOf CBEvent.releaseLock) ∧
    ((cbLayerLockTrace false).count CBEvent.acquireLock = 1 ∧
     (cbLayerLockTrace false).contains CBEvent.upstreamCall = false ∧
     (cbLayerLockTrace false).getLast? = some CBEvent.releaseLock) := by
  decide

/-- Claim C9: evaluation of `parse_duration` at the failing input and at
representative inputs.  On the one-character input `é` the trimmed string
ends in a two-byte character, the slice at byte `len − 1` is not a
character boundary, and the code panics (`none`) instead of returning an
error, contradicting both its own doc comment (Ok or Err) and the claim
of totality; on well-formed and malformed ASCII inputs it behaves as the
claim describes. -/
theorem C9_parse_duration_eval :
    parse_duration "é" = none ∧
    parse_duration "30s" = some (.ok 30) ∧
    parse_duration " 5m " = some (.ok 300) ∧
    parse_duration "1h" = some (.ok 3600) ∧
    parse_duration "" = some (.error "Empty duration") ∧
    parse_duration "  " = some (.error "Empty duration") ∧
    parse_duration "10x" = some (.error "Invalid duration unit") ∧
    parse_duration "abcs" = some (.error "Invalid number in duration") ∧
    parse_duration "s" = some (.error "Invalid number in duration") := by
  decide

end RustyGW
